import Mathlib

/-!
Verification of the manual error-report handler (`reportManualError` in
`interfaces/manual.js`) of the nodejs-error-reporting client library.

The handler normalizes a flexible argument shape, builds or reuses an
Error Payload (`ErrorMessage`), optionally merges request information,
optionally overrides the message, and dispatches the payload once through
the transport client (`client.sendError`).

The embedding models JavaScript values by an inductive type `JSVal`, the
`ErrorMessage` payload by a structure, and one invocation of the handler by
a pure function producing the returned payload, the list of
`sendError` dispatches performed, and the list of logger warnings emitted.
Collaborator code that is not part of the repository sources
(the `ErrorMessage` class methods, the payload populator, the request
extractor) is modelled from the specification, as marked on each such
definition.
-/

namespace ErrorReporting

/-- Service context of a payload: per the spec, service name and version are
required string attributes of every Error Payload. -/
structure ServiceContext where
  service : String
  version : String
deriving DecidableEq

/-- The http-context subset of an Error Payload: method, url, user agent,
referrer, response status, remote IP; every key optional. -/
structure HttpContext where
  method : Option String
  url : Option String
  userAgent : Option String
  referrer : Option String
  responseStatusCode : Option Nat
  remoteIp : Option String
deriving DecidableEq

/-- The empty http context of a freshly constructed payload. -/
def HttpContext.empty : HttpContext :=
  { method := none, url := none, userAgent := none, referrer := none,
    responseStatusCode := none, remoteIp := none }

/-- The Error Payload (`ErrorMessage` class). `id` models object identity so
that reference identity of payloads is expressible; `autoGeneratedStackTrace`
is the construction-site stack trace marker (`_autoGeneratedStackTrace`),
`none` when the property is absent or deleted. -/
structure ErrorMessage where
  id : Nat
  message : String
  serviceContext : ServiceContext
  httpContext : HttpContext
  autoGeneratedStackTrace : Option String
deriving DecidableEq

/-- Modelled from the spec: a freshly constructed Error Payload
(`new ErrorMessage()`, `classes/error-message.js` is not under the sources);
its required service-context strings start at defaults and its message is
empty, with no marker and no http context. -/
def ErrorMessage.new (id : Nat) : ErrorMessage :=
  { id := id, message := "",
    serviceContext := { service := "", version := "" },
    httpContext := HttpContext.empty,
    autoGeneratedStackTrace := none }

/-- Modelled from the spec: `ErrorMessage.setMessage` overwrites the payload's
message. -/
def ErrorMessage.setMessage (em : ErrorMessage) (m : String) : ErrorMessage :=
  { em with message := m }

/-- Modelled from the spec: `ErrorMessage.setServiceContext` sets the
payload's service name and version. -/
def ErrorMessage.setServiceContext (em : ErrorMessage) (service version : String) :
    ErrorMessage :=
  { em with serviceContext := { service := service, version := version } }

/-- A key-wise merge step: a key present in the freshly extracted context
supersedes the prior value, an absent key keeps it. -/
def mergeKey {α : Type} (fresh prior : Option α) : Option α :=
  match fresh with
  | some v => some v
  | none => prior

/-- Modelled from the spec: `ErrorMessage.consumeRequestInformation` merges an
extracted http context into the payload; keys present in the extraction
result supersede the payload's prior values for those keys. -/
def ErrorMessage.consumeRequestInformation (em : ErrorMessage) (hc : HttpContext) :
    ErrorMessage :=
  { em with httpContext :=
    { method := mergeKey hc.method em.httpContext.method,
      url := mergeKey hc.url em.httpContext.url,
      userAgent := mergeKey hc.userAgent em.httpContext.userAgent,
      referrer := mergeKey hc.referrer em.httpContext.referrer,
      responseStatusCode :=
        mergeKey hc.responseStatusCode em.httpContext.responseStatusCode,
      remoteIp := mergeKey hc.remoteIp em.httpContext.remoteIp } }

/-- A framework request object (the `request` argument): the fields the
manual request-information extractor reads. -/
structure Request where
  method : Option String
  url : Option String
  userAgent : Option String
  referrer : Option String
  statusCode : Option Nat
  remoteAddress : Option String
deriving DecidableEq

/-- Modelled from the spec: the Request Extractor
(`request-extractors/manual.js`, not under the sources) maps a
framework-specific request object to the normalized http-context subset. -/
def manualRequestInformationExtractor (req : Request) : HttpContext :=
  { method := req.method, url := req.url, userAgent := req.userAgent,
    referrer := req.referrer, responseStatusCode := req.statusCode,
    remoteIp := req.remoteAddress }

/-- A JavaScript value as the handler distinguishes them: `undefined`, `null`,
strings, numbers, booleans, functions (by identity), plain request objects,
and `ErrorMessage` instances. -/
inductive JSVal where
  | undef
  | null
  | str (s : String)
  | num (n : Int)
  | bool (b : Bool)
  | func (id : Nat)
  | obj (req : Request)
  | errMsg (e : ErrorMessage)
deriving DecidableEq

/-- The `is.string` test of the `is` package: true exactly on strings. -/
def isString : JSVal → Bool
  | JSVal.str _ => true
  | _ => false

/-- The `is.fn` test of the `is` package: true exactly on functions. -/
def isFunction : JSVal → Bool
  | JSVal.func _ => true
  | _ => false

/-- The `is.object` test of the `is` package as used on the request slot: true on a
plain (non-payload) request object, per the spec's "an object, not a
payload". -/
def isObject : JSVal → Bool
  | JSVal.obj _ => true
  | _ => false

/-- The `err instanceof ErrorMessage` capability test. -/
def isErrorMessageInstance : JSVal → Bool
  | JSVal.errMsg _ => true
  | _ => false

/-- Modelled from the spec: the message text the Payload Populator transcribes
from a raw error-like value. -/
def jsRawMessage : JSVal → String
  | JSVal.str s => s
  | JSVal.num n => toString n
  | JSVal.bool b => toString b
  | JSVal.errMsg e => e.message
  | _ => ""

/-- Modelled from the spec: the Payload Populator
(`populate-error-message.js`, not under the sources) transcribes the raw
value's message information into the payload in place, leaving the service
context and http context untouched; structurally invalid required input
(`undefined`/`null`) is a caller error surfaced as an exception. -/
def populateErrorMessage (err : JSVal) (em : ErrorMessage) :
    Except String ErrorMessage :=
  match err with
  | JSVal.undef => Except.error "cannot populate an error message from undefined"
  | JSVal.null => Except.error "cannot populate an error message from null"
  | raw => Except.ok (em.setMessage (jsRawMessage raw))

/-- The environmental configuration handed to the handler at setup time. -/
structure NormalizedConfigurationVariables where
  serviceContext : ServiceContext
deriving DecidableEq

/-- The `config.getServiceContext()` accessor. -/
def NormalizedConfigurationVariables.getServiceContext
    (config : NormalizedConfigurationVariables) : ServiceContext :=
  config.serviceContext

/-- The argument-shape normalization of `reportManualError` (its first two
`if` chains): a string in the request slot shifts right, a function in the
request slot becomes the callback, and afterwards a function in the
additional-message slot becomes the callback. Returns the resolved
(request, additionalMessage, callback) triple. -/
def normalizeArgs (request additionalMessage callback : JSVal) :
    JSVal × JSVal × JSVal :=
  let (request, additionalMessage, callback) :=
    if isString request then
      -- no request given
      (JSVal.undef, request, additionalMessage)
    else if isFunction request then
      -- neither request nor additionalMessage given
      (JSVal.undef, JSVal.undef, request)
    else
      (request, additionalMessage, callback)
  if isFunction additionalMessage then
    (request, JSVal.undef, additionalMessage)
  else
    (request, additionalMessage, callback)

/-- The diagnostic the handler logs for a manually constructed payload that
carries no construction-site stack trace marker. -/
def missingStackTraceWarning (msg : String) : String :=
  "Encountered a manually constructed error with message \"" ++ msg ++
  "\" but without a construction site stack trace.  This error might not be visible in the error reporting console."

/-- The `err instanceof ErrorMessage` branch of `reportManualError`: reuse a
pre-built payload, appending and clearing its stack-trace marker or warning
when there is none; otherwise construct a payload, set its service context
from the configuration and apply the Payload Populator. Returns the base
payload and the warnings logged. -/
def buildBasePayload (config : NormalizedConfigurationVariables) (freshId : Nat)
    (err : JSVal) : Except String (ErrorMessage × List String) :=
  match err with
  | JSVal.errMsg e =>
    match e.autoGeneratedStackTrace with
    | some tr =>
      -- append the construction-site stack trace, then delete the marker so a
      -- second report of the same instance does not append it again
      Except.ok
        ({ e.setMessage (e.message ++ "\n" ++ tr) with
            autoGeneratedStackTrace := none }, [])
    | none =>
      Except.ok (e, [missingStackTraceWarning e.message])
  | _ =>
    match populateErrorMessage err
        ((ErrorMessage.new freshId).setServiceContext
          (config.getServiceContext).service
          (config.getServiceContext).version) with
    | Except.error s => Except.error s
    | Except.ok em => Except.ok (em, [])

/-- The `if (isObject(request))` step of `reportManualError`: merge the
extracted request information into the payload's http context. -/
def applyRequest (em : ErrorMessage) (request : JSVal) : ErrorMessage :=
  match request with
  | JSVal.obj r => em.consumeRequestInformation (manualRequestInformationExtractor r)
  | _ => em

/-- The `if (isString(additionalMessage))` step of `reportManualError`:
override the payload's message. -/
def applyAdditionalMessage (em : ErrorMessage) (additionalMessage : JSVal) :
    ErrorMessage :=
  match additionalMessage with
  | JSVal.str s => em.setMessage s
  | _ => em

/-- One invocation's observable outcome: the payload returned to the caller,
the `client.sendError(payload, callback)` dispatches performed, and the
`logger.warn` lines emitted. -/
structure ReportResult where
  returned : ErrorMessage
  sends : List (ErrorMessage × JSVal)
  warnings : List String
deriving DecidableEq

/-- The handler `reportManualError(err, request, additionalMessage, callback)`: normalize
the argument shape, build or reuse the payload, merge request information,
apply the message override, dispatch once via the transport client and
return the payload. An exception of the Payload Populator propagates. -/
def reportManualError (config : NormalizedConfigurationVariables) (freshId : Nat)
    (err request additionalMessage callback : JSVal) :
    Except String ReportResult :=
  let norm := normalizeArgs request additionalMessage callback
  match buildBasePayload config freshId err with
  | Except.error s => Except.error s
  | Except.ok (em, warns) =>
    let em2 := applyAdditionalMessage (applyRequest em norm.1) norm.2.1
    Except.ok (ReportResult.mk em2 [(em2, norm.2.2)] warns)

/-- An optional-argument value of unexpected type: neither a string, nor a
function, nor a request object (e.g. a number or boolean, or an absent
value). -/
def isMalformedOptional : JSVal → Bool
  | JSVal.undef => true
  | JSVal.null => true
  | JSVal.num _ => true
  | JSVal.bool _ => true
  | _ => false

/-! ### Concrete sample values -/

/-- A sample configuration. -/
def sampleConfig : NormalizedConfigurationVariables :=
  ⟨⟨"my-service", "1.0.0"⟩⟩

/-- A sample framework request object. -/
def sampleRequest : Request :=
  ⟨some "GET", some "/x", some "agent", none, some 200, some "127.0.0.1"⟩

/-- A sample pre-built payload carrying a construction-site marker. -/
def markedPayload : ErrorMessage :=
  ⟨7, "M", ⟨"svc", "v1"⟩, HttpContext.empty, some "S"⟩

/-- The payload `markedPayload` after its marker has been appended and cleared. -/
def markedPayloadAfter : ErrorMessage :=
  ⟨7, "M\nS", ⟨"svc", "v1"⟩, HttpContext.empty, none⟩

/-- A sample hand-built payload without a marker. -/
def unmarkedPayload : ErrorMessage :=
  ⟨8, "boom", ⟨"svc", "v1"⟩, HttpContext.empty, none⟩

/-- A sample hand-built payload with prior http-context values and no
marker. -/
def prebuiltWithHttp : ErrorMessage :=
  ⟨9, "boom", ⟨"svc", "v1"⟩, ⟨some "POST", none, none, some "ref", none, none⟩, none⟩

/-- The payload `prebuiltWithHttp` after the extraction of `sampleRequest` has been merged. -/
def prebuiltMerged : ErrorMessage :=
  ⟨9, "boom", ⟨"svc", "v1"⟩,
    ⟨some "GET", some "/x", some "agent", some "ref", some 200, some "127.0.0.1"⟩,
    none⟩

/-- The outcome of reporting `markedPayload` with no optional arguments. -/
def markedOutcome : ReportResult :=
  ⟨markedPayloadAfter, [(markedPayloadAfter, JSVal.undef)], []⟩

/-- The outcome of reporting `markedPayloadAfter` again. -/
def remarkedOutcome : ReportResult :=
  ⟨markedPayloadAfter, [(markedPayloadAfter, JSVal.undef)],
    [missingStackTraceWarning "M\nS"]⟩

/-- The outcome of reporting the raw string error with an override message. -/
def overrideOutcome : ReportResult :=
  ⟨⟨0, "override", ⟨"my-service", "1.0.0"⟩, HttpContext.empty, none⟩,
    [(⟨0, "override", ⟨"my-service", "1.0.0"⟩, HttpContext.empty, none⟩,
      JSVal.undef)], []⟩

/-- The outcome of reporting `prebuiltWithHttp` with `sampleRequest`. -/
def mergedOutcome : ReportResult :=
  ⟨prebuiltMerged, [(prebuiltMerged, JSVal.undef)],
    [missingStackTraceWarning "boom"]⟩

/-- The outcome of reporting `prebuiltWithHttp` with no request. -/
def unmergedOutcome : ReportResult :=
  ⟨prebuiltWithHttp, [(prebuiltWithHttp, JSVal.undef)],
    [missingStackTraceWarning "boom"]⟩

/-- The outcome of reporting `unmarkedPayload` with no optional arguments. -/
def unmarkedOutcome : ReportResult :=
  ⟨unmarkedPayload, [(unmarkedPayload, JSVal.undef)],
    [missingStackTraceWarning "boom"]⟩

/-- The base payload built for the raw string error `"kaboom"`. -/
def rawBasePayload : ErrorMessage :=
  ⟨0, "kaboom", ⟨"my-service", "1.0.0"⟩, HttpContext.empty, none⟩

/-- The payload `rawBasePayload` after the extraction of `sampleRequest` has
been merged. -/
def rawMergedPayload : ErrorMessage :=
  ⟨0, "kaboom", ⟨"my-service", "1.0.0"⟩,
    ⟨some "GET", some "/x", some "agent", none, some 200, some "127.0.0.1"⟩,
    none⟩

/-- The outcome of reporting the raw string error with `sampleRequest`. -/
def rawMergedOutcome : ReportResult :=
  ⟨rawMergedPayload, [(rawMergedPayload, JSVal.undef)], []⟩

/-- The outcome of reporting the raw string error with no request. -/
def rawUnmergedOutcome : ReportResult :=
  ⟨rawBasePayload, [(rawBasePayload, JSVal.undef)], []⟩

/-- The outcome of reporting the raw string error with only a callback. -/
def callbackOutcome : ReportResult :=
  ⟨⟨0, "err", ⟨"my-service", "1.0.0"⟩, HttpContext.empty, none⟩,
    [(⟨0, "err", ⟨"my-service", "1.0.0"⟩, HttpContext.empty, none⟩,
      JSVal.func 5)], []⟩

/-! ### Helper lemmas -/

/-- The request-merge step never changes the service context. -/
theorem applyRequest_serviceContext (em : ErrorMessage) (v : JSVal) :
    (applyRequest em v).serviceContext = em.serviceContext := by
  cases v <;> simp [applyRequest, ErrorMessage.consumeRequestInformation]

/-- The request-merge step never changes the message. -/
theorem applyRequest_message (em : ErrorMessage) (v : JSVal) :
    (applyRequest em v).message = em.message := by
  cases v <;> simp [applyRequest, ErrorMessage.consumeRequestInformation]

/-- The request-merge step never changes the stack-trace marker. -/
theorem applyRequest_marker (em : ErrorMessage) (v : JSVal) :
    (applyRequest em v).autoGeneratedStackTrace = em.autoGeneratedStackTrace := by
  cases v <;> simp [applyRequest, ErrorMessage.consumeRequestInformation]

/-- When the request slot holds no plain object, the merge step is skipped. -/
theorem applyRequest_not_object (em : ErrorMessage) (v : JSVal)
    (h : isObject v = false) : applyRequest em v = em := by
  cases v <;> simp_all [applyRequest, isObject]

/-- The message-override step never changes the service context. -/
theorem applyAdditionalMessage_serviceContext (em : ErrorMessage) (v : JSVal) :
    (applyAdditionalMessage em v).serviceContext = em.serviceContext := by
  cases v <;> simp [applyAdditionalMessage, ErrorMessage.setMessage]

/-- The message-override step never changes the http context. -/
theorem applyAdditionalMessage_httpContext (em : ErrorMessage) (v : JSVal) :
    (applyAdditionalMessage em v).httpContext = em.httpContext := by
  cases v <;> simp [applyAdditionalMessage, ErrorMessage.setMessage]

/-- The message-override step never changes the stack-trace marker. -/
theorem applyAdditionalMessage_marker (em : ErrorMessage) (v : JSVal) :
    (applyAdditionalMessage em v).autoGeneratedStackTrace =
      em.autoGeneratedStackTrace := by
  cases v <;> simp [applyAdditionalMessage, ErrorMessage.setMessage]

/-- When the additional-message slot holds no string, the override is
skipped. -/
theorem applyAdditionalMessage_not_string (em : ErrorMessage) (v : JSVal)
    (h : isString v = false) : applyAdditionalMessage em v = em := by
  cases v <;> simp_all [applyAdditionalMessage, isString]

/-- Characterization of a successful invocation: the handler succeeds exactly
when the base-payload phase does, and then the returned payload is the base
payload after the merge and override steps, dispatched once with the
normalized callback. -/
theorem reportManualError_ok_iff (config : NormalizedConfigurationVariables)
    (freshId : Nat) (err request msg cb : JSVal) (res : ReportResult) :
    reportManualError config freshId err request msg cb = Except.ok res ↔
      ∃ em warns, buildBasePayload config freshId err = Except.ok (em, warns) ∧
        res = ReportResult.mk
          (applyAdditionalMessage (applyRequest em (normalizeArgs request msg cb).1)
            (normalizeArgs request msg cb).2.1)
          [(applyAdditionalMessage (applyRequest em (normalizeArgs request msg cb).1)
            (normalizeArgs request msg cb).2.1, (normalizeArgs request msg cb).2.2)]
          warns := by
  unfold reportManualError
  cases hb : buildBasePayload config freshId err with
  | error s => simp
  | ok p =>
    cases p with
    | mk em warns =>
      simp only [Except.ok.injEq]
      constructor
      · intro h
        exact ⟨em, warns, rfl, h.symm⟩
      · rintro ⟨em2, warns2, heq, hres⟩
        injection heq with h1 h2
        subst h1; subst h2
        exact hres.symm

/-- The handler fails exactly when the base-payload phase fails; the optional
arguments play no part in it. -/
theorem reportManualError_isOk (config : NormalizedConfigurationVariables)
    (freshId : Nat) (err request msg cb : JSVal) :
    (reportManualError config freshId err request msg cb).isOk =
      (buildBasePayload config freshId err).isOk := by
  unfold reportManualError
  cases hb : buildBasePayload config freshId err with
  | error s => simp [Except.isOk, Except.toBool]
  | ok p =>
    cases p with
    | mk em warns => simp [Except.isOk, Except.toBool]

/-- The base-payload phase fails exactly on `undefined`/`null` input. -/
theorem buildBasePayload_isOk (config : NormalizedConfigurationVariables)
    (freshId : Nat) (err : JSVal) :
    (buildBasePayload config freshId err).isOk =
      !(err = JSVal.undef ∨ err = JSVal.null : Bool) := by
  cases err <;>
    simp [buildBasePayload, populateErrorMessage, Except.isOk, Except.toBool]
  case errMsg e => cases e.autoGeneratedStackTrace <;> simp

/-- The base-payload phase of a non-payload input sets the service context
from the configuration (before the populator runs, which preserves it). -/
theorem buildBasePayload_serviceContext (config : NormalizedConfigurationVariables)
    (fid : Nat) (err : JSVal) (em : ErrorMessage) (warns : List String)
    (hni : isErrorMessageInstance err = false)
    (hb : buildBasePayload config fid err = Except.ok (em, warns)) :
    em.serviceContext = config.getServiceContext := by
  cases err <;> simp [isErrorMessageInstance] at hni <;>
    simp [buildBasePayload, populateErrorMessage, ErrorMessage.setMessage,
      ErrorMessage.setServiceContext, ErrorMessage.new,
      NormalizedConfigurationVariables.getServiceContext] at hb <;>
    simp [← hb.1, NormalizedConfigurationVariables.getServiceContext]

/-- The base-payload phase emits at most one warning. -/
theorem buildBasePayload_warnings (config : NormalizedConfigurationVariables)
    (fid : Nat) (err : JSVal) (em : ErrorMessage) (warns : List String)
    (hb : buildBasePayload config fid err = Except.ok (em, warns)) :
    warns.length ≤ 1 := by
  cases err <;>
    simp [buildBasePayload, populateErrorMessage] at hb
  case errMsg e =>
    cases he : e.autoGeneratedStackTrace <;> simp [he] at hb <;>
      first | simp [hb.2] | simp [← hb.2]
  all_goals simp [hb.2]

/-- The base-payload phase never changes a pre-built payload's http
context. -/
theorem buildBasePayload_prebuilt_httpContext (config : NormalizedConfigurationVariables)
    (fid : Nat) (e em : ErrorMessage) (warns : List String)
    (hb : buildBasePayload config fid (JSVal.errMsg e) = Except.ok (em, warns)) :
    em.httpContext = e.httpContext := by
  cases he : e.autoGeneratedStackTrace <;>
    simp [buildBasePayload, he, ErrorMessage.setMessage] at hb <;>
    simp [← hb.1]

/-- Normalization never moves anything into an object-holding request slot:
the resolved request is the object itself. -/
theorem normalizeArgs_obj_fst (r : Request) (msg cb : JSVal) :
    (normalizeArgs (JSVal.obj r) msg cb).1 = JSVal.obj r := by
  cases msg <;> simp [normalizeArgs, isString, isFunction]

/-- Normalization leaves an absent request slot absent. -/
theorem normalizeArgs_undef_fst (msg cb : JSVal) :
    (normalizeArgs JSVal.undef msg cb).1 = JSVal.undef := by
  cases msg <;> simp [normalizeArgs, isString, isFunction]

/-- A malformed optional value is not a request object. -/
theorem isMalformedOptional_not_object (v : JSVal)
    (h : isMalformedOptional v = true) : isObject v = false := by
  cases v <;> simp_all [isMalformedOptional, isObject]

/-- A malformed optional value is not a string. -/
theorem isMalformedOptional_not_string (v : JSVal)
    (h : isMalformedOptional v = true) : isString v = false := by
  cases v <;> simp_all [isMalformedOptional, isString]

/-- Normalization leaves malformed optional arguments in place. -/
theorem normalizeArgs_malformed (a b c : JSVal)
    (ha : isMalformedOptional a = true) (hb : isMalformedOptional b = true) :
    normalizeArgs a b c = (a, b, c) := by
  cases a <;> simp_all [isMalformedOptional] <;>
    cases b <;> simp_all [isMalformedOptional, normalizeArgs, isString, isFunction]

/-! ### Claim theorems -/

/-- C1: the handler's argument slots are resolved right-to-left by type
inspection in exactly three steps: a string in the request slot moves the old
additional message into the callback, itself into the additional message, and
leaves the request absent; otherwise a callable in the request slot becomes
the callback with request and additional message absent; and afterwards a
callable left in the additional-message slot becomes the callback, leaving
the additional message absent. -/
theorem report_argument_resolution (request msg cb : JSVal) :
    (isString request = true →
      normalizeArgs request msg cb = (JSVal.undef, request, msg)) ∧
    (isString request = false → isFunction request = true →
      normalizeArgs request msg cb = (JSVal.undef, JSVal.undef, request)) ∧
    (isString request = false → isFunction request = false →
      isFunction msg = true →
      normalizeArgs request msg cb = (request, JSVal.undef, msg)) ∧
    (isString request = false → isFunction request = false →
      isFunction msg = false →
      normalizeArgs request msg cb = (request, msg, cb)) := by
  cases request <;> cases msg <;>
    simp [normalizeArgs, isString, isFunction]

/-- C8: for each of the eight call shapes with typed arguments (request an
object, additional message a string, callback a function), normalization
resolves the intended (request, additionalMessage, callback) triple, and
applying normalization a second time to any already-normalized triple leaves
it unchanged. -/
theorem call_shape_resolution_idempotent (r : Request) (m : String) (f : Nat) :
    normalizeArgs JSVal.undef JSVal.undef JSVal.undef =
      (JSVal.undef, JSVal.undef, JSVal.undef) ∧
    normalizeArgs (JSVal.obj r) JSVal.undef JSVal.undef =
      (JSVal.obj r, JSVal.undef, JSVal.undef) ∧
    normalizeArgs (JSVal.str m) JSVal.undef JSVal.undef =
      (JSVal.undef, JSVal.str m, JSVal.undef) ∧
    normalizeArgs (JSVal.func f) JSVal.undef JSVal.undef =
      (JSVal.undef, JSVal.undef, JSVal.func f) ∧
    normalizeArgs (JSVal.obj r) (JSVal.str m) JSVal.undef =
      (JSVal.obj r, JSVal.str m, JSVal.undef) ∧
    normalizeArgs (JSVal.obj r) (JSVal.func f) JSVal.undef =
      (JSVal.obj r, JSVal.undef, JSVal.func f) ∧
    normalizeArgs (JSVal.str m) (JSVal.func f) JSVal.undef =
      (JSVal.undef, JSVal.str m, JSVal.func f) ∧
    normalizeArgs (JSVal.obj r) (JSVal.str m) (JSVal.func f) =
      (JSVal.obj r, JSVal.str m, JSVal.func f) ∧
    (∀ a b c : JSVal,
      normalizeArgs (normalizeArgs a b c).1 (normalizeArgs a b c).2.1
          (normalizeArgs a b c).2.2 =
        normalizeArgs a b c) := by
  refine ⟨rfl, rfl, rfl, rfl, rfl, rfl, rfl, rfl, ?_⟩
  intro a b c
  cases a <;> cases b <;> simp [normalizeArgs, isString, isFunction]

/-- C2: reporting a pre-built payload whose construction-site stack-trace
marker holds `tr` appends the marker to the message separated by a newline
and removes the marker, so a second report of the resulting payload instance
leaves it unchanged rather than appending the trace again. -/
theorem report_appends_stack_trace_once (config : NormalizedConfigurationVariables)
    (fid fid2 : Nat) (e : ErrorMessage) (tr : String) (res res2 : ReportResult)
    (h : e.autoGeneratedStackTrace = some tr)
    (h1 : reportManualError config fid (JSVal.errMsg e)
      JSVal.undef JSVal.undef JSVal.undef = Except.ok res)
    (h2 : reportManualError config fid2 (JSVal.errMsg res.returned)
      JSVal.undef JSVal.undef JSVal.undef = Except.ok res2) :
    res.returned.message = e.message ++ "\n" ++ tr ∧
    res.returned.autoGeneratedStackTrace = none ∧
    res2.returned = res.returned := by
  rw [reportManualError_ok_iff] at h1 h2
  obtain ⟨em, warns, hb, rfl⟩ := h1
  obtain ⟨em2, warns2, hb2, rfl⟩ := h2
  simp only [buildBasePayload, h] at hb
  injection hb with hb'
  injection hb' with hem hwarns
  subst hem
  refine ⟨rfl, rfl, ?_⟩
  simp only [buildBasePayload] at hb2
  simp only [normalizeArgs, isString, isFunction] at hb2 ⊢
  simp only [applyRequest, applyAdditionalMessage, ErrorMessage.setMessage] at hb2 ⊢
  injection hb2 with hb2'
  injection hb2' with hem2 hwarns2
  subst hem2
  rfl

/-- C3: when the additional-message slot holds a string after normalization,
the payload's final message equals that string: the override is the last
mutation before dispatch and replaces whatever the message held. -/
theorem additional_message_overrides (config : NormalizedConfigurationVariables)
    (fid : Nat) (err request msg cb : JSVal) (s : String) (res : ReportResult)
    (h : (normalizeArgs request msg cb).2.1 = JSVal.str s)
    (h1 : reportManualError config fid err request msg cb = Except.ok res) :
    res.returned.message = s := by
  rw [reportManualError_ok_iff] at h1
  obtain ⟨em, warns, hb, rfl⟩ := h1
  simp [h, applyAdditionalMessage, ErrorMessage.setMessage]

/-- C4: every completing invocation returns a payload, and the payload it
dispatches through the transport client is exactly the returned one. -/
theorem report_returns_sent_payload (config : NormalizedConfigurationVariables)
    (fid : Nat) (err request msg cb : JSVal) (res : ReportResult)
    (h : reportManualError config fid err request msg cb = Except.ok res) :
    res.sends.map Prod.fst = [res.returned] := by
  rw [reportManualError_ok_iff] at h
  obtain ⟨em, warns, hb, rfl⟩ := h
  rfl

/-- C10: every completing invocation dispatches through the transport client
exactly once, handing it the returned payload together with the normalized
callback value unchanged (possibly an absent one). -/
theorem dispatch_exactly_once_with_callback (config : NormalizedConfigurationVariables)
    (fid : Nat) (err request msg cb : JSVal) (res : ReportResult)
    (h : reportManualError config fid err request msg cb = Except.ok res) :
    res.sends = [(res.returned, (normalizeArgs request msg cb).2.2)] := by
  rw [reportManualError_ok_iff] at h
  obtain ⟨em, warns, hb, rfl⟩ := h
  rfl

/-- C5: when the input is not a pre-built payload, the payload handed to the
transport client carries the service name and version of the configuration's
service context, set on the freshly constructed payload before the populator
runs and preserved by every later step up to dispatch. -/
theorem service_context_present_before_dispatch (config : NormalizedConfigurationVariables)
    (fid : Nat) (err request msg cb : JSVal) (res : ReportResult)
    (hni : isErrorMessageInstance err = false)
    (h : reportManualError config fid err request msg cb = Except.ok res) :
    (res.sends.map fun pc => pc.1.serviceContext) = [config.getServiceContext] := by
  rw [reportManualError_ok_iff] at h
  obtain ⟨em, warns, hb, rfl⟩ := h
  have hsc := buildBasePayload_serviceContext config fid err em warns hni hb
  simp [applyAdditionalMessage_serviceContext, applyRequest_serviceContext, hsc]

/-- C6: for every invocation (raw error or pre-built payload alike) in which
the request slot holds an object after normalization, the request
extractor's result is merged into the payload's http context with the keys
present in the extraction result superseding the values the payload held at
that point (the base payload's); when the request slot is absent, the http
context is untouched. -/
theorem request_merge_supersedes (config : NormalizedConfigurationVariables)
    (fid : Nat) (err request msg cb : JSVal) (r : Request)
    (em : ErrorMessage) (warns : List String) (res resAbsent : ReportResult)
    (hreq : (normalizeArgs request msg cb).1 = JSVal.obj r)
    (hb : buildBasePayload config fid err = Except.ok (em, warns))
    (h1 : reportManualError config fid err request msg cb = Except.ok res)
    (h2 : reportManualError config fid err JSVal.undef msg cb =
      Except.ok resAbsent) :
    (res.returned.httpContext.method =
      mergeKey (manualRequestInformationExtractor r).method em.httpContext.method) ∧
    (res.returned.httpContext.url =
      mergeKey (manualRequestInformationExtractor r).url em.httpContext.url) ∧
    (res.returned.httpContext.userAgent =
      mergeKey (manualRequestInformationExtractor r).userAgent
        em.httpContext.userAgent) ∧
    (res.returned.httpContext.referrer =
      mergeKey (manualRequestInformationExtractor r).referrer
        em.httpContext.referrer) ∧
    (res.returned.httpContext.responseStatusCode =
      mergeKey (manualRequestInformationExtractor r).responseStatusCode
        em.httpContext.responseStatusCode) ∧
    (res.returned.httpContext.remoteIp =
      mergeKey (manualRequestInformationExtractor r).remoteIp
        em.httpContext.remoteIp) ∧
    resAbsent.returned.httpContext = em.httpContext := by
  rw [reportManualError_ok_iff] at h1 h2
  obtain ⟨em1, warns1, hb1, rfl⟩ := h1
  obtain ⟨em2, warns2, hb2, rfl⟩ := h2
  rw [hb] at hb1 hb2
  injection hb1 with hb1'
  injection hb1' with hem1 hwarns1
  injection hb2 with hb2'
  injection hb2' with hem2 hwarns2
  subst hem1
  subst hem2
  refine ⟨?_, ?_, ?_, ?_, ?_, ?_, ?_⟩ <;>
    simp [applyAdditionalMessage_httpContext, hreq,
      normalizeArgs_undef_fst, applyRequest,
      ErrorMessage.consumeRequestInformation]

/-- C7: reporting a pre-built payload that carries no construction-site
stack-trace marker logs the diagnostic warning exactly once and still
dispatches exactly once; and no invocation ever logs more than one
diagnostic. -/
theorem prebuilt_without_marker_warns_once (config : NormalizedConfigurationVariables)
    (fid : Nat) (e : ErrorMessage) (request msg cb : JSVal) (res : ReportResult)
    (hm : e.autoGeneratedStackTrace = none)
    (h : reportManualError config fid (JSVal.errMsg e) request msg cb =
      Except.ok res) :
    res.warnings = [missingStackTraceWarning e.message] ∧
    res.sends.length = 1 ∧
    (∀ (err2 : JSVal) (res2 : ReportResult),
      reportManualError config fid err2 request msg cb = Except.ok res2 →
      res2.warnings.length ≤ 1) := by
  rw [reportManualError_ok_iff] at h
  obtain ⟨em, warns, hb, rfl⟩ := h
  simp only [buildBasePayload, hm] at hb
  injection hb with hb'
  injection hb' with hem hwarns
  refine ⟨hwarns.symm, rfl, ?_⟩
  intro err2 res2 h2
  rw [reportManualError_ok_iff] at h2
  obtain ⟨em2, warns2, hb2, rfl⟩ := h2
  exact buildBasePayload_warnings config fid err2 em2 warns2 hb2

/-- C9: optional arguments of unexpected type never make the handler throw
and are treated as absent: success depends only on the required input (which
fails exactly on the populator's undefined/null case), and the payload built
and the warnings logged match the invocation with all optional arguments
omitted. -/
theorem malformed_optionals_never_throw (config : NormalizedConfigurationVariables)
    (fid : Nat) (err a b c : JSVal)
    (ha : isMalformedOptional a = true) (hbm : isMalformedOptional b = true)
    (_hcm : isMalformedOptional c = true) :
    ((reportManualError config fid err a b c).isOk = true ↔
      ¬(err = JSVal.undef ∨ err = JSVal.null)) ∧
    (∀ res res2 : ReportResult,
      reportManualError config fid err a b c = Except.ok res →
      reportManualError config fid err JSVal.undef JSVal.undef JSVal.undef =
        Except.ok res2 →
      res.returned = res2.returned ∧ res.warnings = res2.warnings) := by
  constructor
  · rw [reportManualError_isOk, buildBasePayload_isOk]
    simp
  · intro res res2 h1 h2
    rw [reportManualError_ok_iff] at h1 h2
    obtain ⟨em, warns, hb, rfl⟩ := h1
    obtain ⟨em2, warns2, hb2, rfl⟩ := h2
    rw [hb] at hb2
    injection hb2 with hb2'
    injection hb2' with hem hwarns
    subst hem
    subst hwarns
    have hna := isMalformedOptional_not_object a ha
    have hnb := isMalformedOptional_not_string b hbm
    refine ⟨?_, rfl⟩
    rw [normalizeArgs_malformed a b c ha hbm,
      normalizeArgs_malformed JSVal.undef JSVal.undef JSVal.undef rfl rfl]
    show applyAdditionalMessage (applyRequest em a) b =
      applyAdditionalMessage (applyRequest em JSVal.undef) JSVal.undef
    rw [applyRequest_not_object em a hna,
      applyAdditionalMessage_not_string em b hnb]
    rfl

/-! ### Witnesses: each claim theorem with hypotheses, applied at a concrete
input -/

/-- Witness for C2 at `markedPayload`. -/
theorem report_appends_stack_trace_once_spot :
    markedOutcome.returned.message = markedPayload.message ++ "\n" ++ "S" ∧
    markedOutcome.returned.autoGeneratedStackTrace = none ∧
    remarkedOutcome.returned = markedOutcome.returned :=
  report_appends_stack_trace_once sampleConfig 0 1 markedPayload "S"
    markedOutcome remarkedOutcome rfl (by rfl) (by rfl)

/-- Witness for C3 at a raw string error with override `"override"`. -/
theorem additional_message_overrides_spot :
    overrideOutcome.returned.message = "override" :=
  additional_message_overrides sampleConfig 0 (JSVal.str "err") JSVal.undef
    (JSVal.str "override") JSVal.undef "override" overrideOutcome rfl (by rfl)

/-- Witness for C4 at a raw string error. -/
theorem report_returns_sent_payload_spot :
    overrideOutcome.sends.map Prod.fst = [overrideOutcome.returned] :=
  report_returns_sent_payload sampleConfig 0 (JSVal.str "err") JSVal.undef
    (JSVal.str "override") JSVal.undef overrideOutcome (by rfl)

/-- Witness for C5 at a raw string error. -/
theorem service_context_present_before_dispatch_spot :
    (overrideOutcome.sends.map fun pc => pc.1.serviceContext) =
      [sampleConfig.getServiceContext] :=
  service_context_present_before_dispatch sampleConfig 0 (JSVal.str "err")
    JSVal.undef (JSVal.str "override") JSVal.undef overrideOutcome rfl (by rfl)

/-- Witness for C6, both at the raw string error `"kaboom"` (the raw-error
branch, empty prior context) and at `prebuiltWithHttp` (prior values being
superseded), each with `sampleRequest`. -/
theorem request_merge_supersedes_spot :
    ((rawMergedOutcome.returned.httpContext.method =
      mergeKey (manualRequestInformationExtractor sampleRequest).method
        rawBasePayload.httpContext.method) ∧
    (rawMergedOutcome.returned.httpContext.url =
      mergeKey (manualRequestInformationExtractor sampleRequest).url
        rawBasePayload.httpContext.url) ∧
    (rawMergedOutcome.returned.httpContext.userAgent =
      mergeKey (manualRequestInformationExtractor sampleRequest).userAgent
        rawBasePayload.httpContext.userAgent) ∧
    (rawMergedOutcome.returned.httpContext.referrer =
      mergeKey (manualRequestInformationExtractor sampleRequest).referrer
        rawBasePayload.httpContext.referrer) ∧
    (rawMergedOutcome.returned.httpContext.responseStatusCode =
      mergeKey (manualRequestInformationExtractor sampleRequest).responseStatusCode
        rawBasePayload.httpContext.responseStatusCode) ∧
    (rawMergedOutcome.returned.httpContext.remoteIp =
      mergeKey (manualRequestInformationExtractor sampleRequest).remoteIp
        rawBasePayload.httpContext.remoteIp) ∧
    rawUnmergedOutcome.returned.httpContext = rawBasePayload.httpContext) ∧
    ((mergedOutcome.returned.httpContext.method =
      mergeKey (manualRequestInformationExtractor sampleRequest).method
        prebuiltWithHttp.httpContext.method) ∧
    (mergedOutcome.returned.httpContext.url =
      mergeKey (manualRequestInformationExtractor sampleRequest).url
        prebuiltWithHttp.httpContext.url) ∧
    (mergedOutcome.returned.httpContext.userAgent =
      mergeKey (manualRequestInformationExtractor sampleRequest).userAgent
        prebuiltWithHttp.httpContext.userAgent) ∧
    (mergedOutcome.returned.httpContext.referrer =
      mergeKey (manualRequestInformationExtractor sampleRequest).referrer
        prebuiltWithHttp.httpContext.referrer) ∧
    (mergedOutcome.returned.httpContext.responseStatusCode =
      mergeKey (manualRequestInformationExtractor sampleRequest).responseStatusCode
        prebuiltWithHttp.httpContext.responseStatusCode) ∧
    (mergedOutcome.returned.httpContext.remoteIp =
      mergeKey (manualRequestInformationExtractor sampleRequest).remoteIp
        prebuiltWithHttp.httpContext.remoteIp) ∧
    unmergedOutcome.returned.httpContext = prebuiltWithHttp.httpContext) :=
  ⟨request_merge_supersedes sampleConfig 0 (JSVal.str "kaboom")
      (JSVal.obj sampleRequest) JSVal.undef JSVal.undef sampleRequest
      rawBasePayload [] rawMergedOutcome rawUnmergedOutcome
      rfl (by rfl) (by rfl) (by rfl),
    request_merge_supersedes sampleConfig 0 (JSVal.errMsg prebuiltWithHttp)
      (JSVal.obj sampleRequest) JSVal.undef JSVal.undef sampleRequest
      prebuiltWithHttp [missingStackTraceWarning "boom"]
      mergedOutcome unmergedOutcome rfl (by rfl) (by rfl) (by rfl)⟩

/-- Witness for C7 at `unmarkedPayload`. -/
theorem prebuilt_without_marker_warns_once_spot :
    unmarkedOutcome.warnings = [missingStackTraceWarning unmarkedPayload.message] ∧
    unmarkedOutcome.sends.length = 1 ∧
    (∀ (err2 : JSVal) (res2 : ReportResult),
      reportManualError sampleConfig 0 err2 JSVal.undef JSVal.undef JSVal.undef =
        Except.ok res2 →
      res2.warnings.length ≤ 1) :=
  prebuilt_without_marker_warns_once sampleConfig 0 unmarkedPayload
    JSVal.undef JSVal.undef JSVal.undef unmarkedOutcome rfl (by rfl)

/-- Witness for C9 at a raw string error with numeric optional arguments. -/
theorem malformed_optionals_never_throw_spot :
    ((reportManualError sampleConfig 0 (JSVal.str "err")
        (JSVal.num 1) (JSVal.num 2) (JSVal.num 3)).isOk = true ↔
      ¬(JSVal.str "err" = JSVal.undef ∨ JSVal.str "err" = JSVal.null)) ∧
    (∀ res res2 : ReportResult,
      reportManualError sampleConfig 0 (JSVal.str "err")
        (JSVal.num 1) (JSVal.num 2) (JSVal.num 3) = Except.ok res →
      reportManualError sampleConfig 0 (JSVal.str "err")
        JSVal.undef JSVal.undef JSVal.undef = Except.ok res2 →
      res.returned = res2.returned ∧ res.warnings = res2.warnings) :=
  malformed_optionals_never_throw sampleConfig 0 (JSVal.str "err")
    (JSVal.num 1) (JSVal.num 2) (JSVal.num 3) rfl rfl rfl

/-- Witness for C10 at a raw string error with only a callback. -/
theorem dispatch_exactly_once_with_callback_spot :
    callbackOutcome.sends =
      [(callbackOutcome.returned,
        (normalizeArgs JSVal.undef JSVal.undef (JSVal.func 5)).2.2)] :=
  dispatch_exactly_once_with_callback sampleConfig 0 (JSVal.str "err")
    JSVal.undef JSVal.undef (JSVal.func 5) callbackOutcome (by rfl)

end ErrorReporting
